import Mathlib

/-!
Verification development for the ECH2O AOP design dashboard's calculation
engine (`calculate_design_values` in `app.py`).

The Python engine works on IEEE floats; this embedding models every numeric
quantity as an exact rational (`ℚ`), translating the decimal literals of the
source exactly (`0.40 = 2/5`, `0.25 = 1/4`, `0.19 = 19/100`, ...).  Counts
produced by `int(np.ceil(...))` are modelled with `Int.ceil` followed by
`Int.toNat` (the two agree with Python on the positive values arising in the
engine's validated domain).  The `while` loop that stages the COD reduction
is embedded as a fuel-indexed recursive function returning `Option`; a run
of the engine therefore returns `none` exactly when the given fuel does not
cover the loop's iteration count.
-/

/-- Process inputs of the engine (sidebar widgets in the source). -/
structure ProcessInputs where
  flowrate : ℚ
  cod_inlet : ℚ
  cod_target : ℚ
  initial_ph : ℚ
  reactor_size : ℚ
deriving DecidableEq

/-- Cost and consumption parameters of the engine: the fourteen function
parameters of `calculate_design_values` plus the three sidebar globals it
reads (`electricity_cost`, `chemical_cost_factor`, `php_conversion_rate`). -/
structure CostRates where
  aop_reactor_unit_cost : ℚ
  pump_unit_cost : ℚ
  filter_unit_cost : ℚ
  ph_adjustment_unit_cost : ℚ
  ozone_generator_unit_cost : ℚ
  operator_monthly_salary : ℚ
  ozone_power_consumption : ℚ
  pump_power_consumption : ℚ
  chemicals_base_cost : ℚ
  maintenance_factor : ℚ
  piping_factor : ℚ
  epc_factor : ℚ
  container_20ft_cost : ℚ
  container_40ft_cost : ℚ
  electricity_cost : ℚ
  chemical_cost_factor : ℚ
  php_conversion_rate : ℚ
deriving DecidableEq

/-- The COD staging `while` loop of the source,
`while current_cod > cod_target: current_cod = current_cod * 0.40; ...`,
as a fuel-indexed function.  The accumulator carries the running stage count
and the recorded `cod_values` list; `none` means the fuel ran out while the
loop guard still held. -/
def codLoop (target : ℚ) : ℕ → ℚ → ℕ → List ℚ → Option (ℕ × List ℚ)
  | 0, current, stages, values =>
      if target < current then none else some (stages, values)
  | fuel + 1, current, stages, values =>
      if target < current then
        codLoop target fuel (current * (2/5)) (stages + 1)
          (values ++ [current * (2/5)])
      else some (stages, values)

/-- Container selection for flowrates above 15 m³/day (the `else` branch of
the source's container logic): one 40ft container when everything fits,
otherwise `total_equipment_units // 12` 40ft containers plus either one 20ft
container (remainder ≤ 6) or one more 40ft container (remainder > 6).
Returns `(num_20ft_containers, num_40ft_containers)`. -/
def containerCounts40 (u : ℕ) : ℕ × ℕ :=
  if u ≤ 12 then (0, 1)
  else
    if 0 < u % 12 then
      if u % 12 ≤ 6 then (1, u / 12) else (0, u / 12 + 1)
    else (0, u / 12)

/-- Full container selection policy of the source: flowrates up to
15 m³/day always get exactly one 20ft container; larger flowrates use the
40ft-based policy `containerCounts40`. -/
def containerCounts (flowrate : ℚ) (u : ℕ) : ℕ × ℕ :=
  if flowrate ≤ 15 then (1, 0) else containerCounts40 u

/-- The engine's result record: the dictionary returned by
`calculate_design_values`, plus the two internal locals `required_filter_area`
and `direct_costs` that the cost roll-up is defined through. -/
structure DesignResult where
  flowrate : ℚ
  cod_inlet : ℚ
  cod_target : ℚ
  initial_ph : ℚ
  reactor_size : ℚ
  cod_load_kg_per_day : ℚ
  ozone_requirement_kg_per_day : ℚ
  stages_needed : ℕ
  num_reactor_trains : ℕ
  total_reactors : ℕ
  num_ozone_generators : ℕ
  ozone_generator_cost : ℚ
  cod_reduction_stages : List ℚ
  pump_flow_rate_per_train : ℚ
  total_pump_flow_rate : ℚ
  recirculation_flow_rate : ℚ
  recirculation_pumps_required : ℕ
  total_influent_effluent_pumps : ℕ
  total_pumps : ℕ
  aop_reactor_cost : ℚ
  pump_cost : ℚ
  required_filter_area : ℚ
  filter_cost : ℚ
  filter_units : ℕ
  ph_adjustment_cost : ℚ
  piping_cost : ℚ
  direct_costs : ℚ
  epc_cost : ℚ
  total_capex : ℚ
  monthly_ozone_power_cost : ℚ
  daily_recirculation_energy : ℚ
  monthly_pumping_cost : ℚ
  monthly_chemical_cost : ℚ
  monthly_labor_cost : ℚ
  monthly_maintenance_cost : ℚ
  total_monthly_opex : ℚ
  operators_required : ℕ
  num_20ft_containers : ℕ
  num_40ft_containers : ℕ
  container_cost : ℚ
  total_equipment_units : ℕ
deriving DecidableEq

/-- Everything `calculate_design_values` computes after (and independently
of) the COD staging loop, as a function of the loop's outputs: the raw stage
count and the recorded `cod_values` sequence.  A line-by-line translation of
the source. -/
def designFromStaging (p : ProcessInputs) (r : CostRates)
    (stagesRaw : ℕ) (cod_values : List ℚ) : DesignResult :=
  let cod_load_kg_per_day := p.flowrate * p.cod_inlet / 1000
  let ozone_requirement_kg_per_day := (1/4 : ℚ) * cod_load_kg_per_day
  let reactor_volume_per_hour := p.flowrate / 24
  let hourly_processing_capacity_per_reactor := p.reactor_size / 2
  let num_parallel_reactors_needed : ℤ :=
    Int.ceil (reactor_volume_per_hour / hourly_processing_capacity_per_reactor)
  let stages_needed := max 2 (min 4 stagesRaw)
  let num_reactor_trains : ℕ := num_parallel_reactors_needed.toNat
  let total_reactors := num_reactor_trains * stages_needed
  let num_ozone_generators := total_reactors * 2
  let ozone_generator_cost :=
    (num_ozone_generators : ℚ) * r.ozone_generator_unit_cost
  let pump_flow_rate_per_train := p.reactor_size / (1/4 : ℚ)
  let total_pump_flow_rate := pump_flow_rate_per_train * (num_reactor_trains : ℚ)
  let recirculation_flow_rate := (total_reactors : ℚ) * p.reactor_size * 5 / 2
  let recirculation_pumps_required : ℕ := 2
  let aop_reactor_cost := r.aop_reactor_unit_cost * (total_reactors : ℚ)
  let total_influent_effluent_pumps := num_reactor_trains * 4
  let total_pumps := total_influent_effluent_pumps + recirculation_pumps_required
  let pump_cost := r.pump_unit_cost * (total_pumps : ℚ)
  let required_filter_area := total_pump_flow_rate / 10
  let filter_units : ℕ := max 2 (Int.ceil (required_filter_area / 5)).toNat
  let filter_cost := r.filter_unit_cost * required_filter_area
  let ph_adjustment_cost := r.ph_adjustment_unit_cost
  let total_equipment_units := total_reactors + filter_units
  let counts := containerCounts p.flowrate total_equipment_units
  let num_20ft_containers := counts.1
  let num_40ft_containers := counts.2
  let container_cost := (num_20ft_containers : ℚ) * r.container_20ft_cost +
    (num_40ft_containers : ℚ) * r.container_40ft_cost
  let piping_cost := (aop_reactor_cost + pump_cost) * r.piping_factor
  let direct_costs := aop_reactor_cost + ozone_generator_cost + pump_cost +
    filter_cost + ph_adjustment_cost + piping_cost + container_cost
  let epc_cost := direct_costs * r.epc_factor
  let total_capex := direct_costs + epc_cost
  let daily_ozone_energy := ozone_requirement_kg_per_day * r.ozone_power_consumption
  let monthly_ozone_energy := daily_ozone_energy * 30
  let monthly_ozone_power_cost := monthly_ozone_energy * r.electricity_cost
  let daily_pumping_energy := p.flowrate * r.pump_power_consumption
  let daily_recirculation_energy :=
    recirculation_flow_rate * 24 * r.pump_power_consumption
  let total_daily_pumping_energy := daily_pumping_energy + daily_recirculation_energy
  let monthly_pumping_energy := total_daily_pumping_energy * 30
  let monthly_pumping_cost := monthly_pumping_energy * r.electricity_cost
  let monthly_chemical_cost :=
    (p.flowrate * 30) * r.chemicals_base_cost * r.chemical_cost_factor
  let operators_required : ℕ := max 1 (Int.ceil ((total_reactors : ℚ) / 8)).toNat
  let monthly_labor_cost := (operators_required : ℚ) * r.operator_monthly_salary
  let monthly_maintenance_cost := total_capex * r.maintenance_factor / 12
  let total_monthly_opex := monthly_ozone_power_cost + monthly_pumping_cost +
    monthly_chemical_cost + monthly_labor_cost + monthly_maintenance_cost
  { flowrate := p.flowrate
    cod_inlet := p.cod_inlet
    cod_target := p.cod_target
    initial_ph := p.initial_ph
    reactor_size := p.reactor_size
    cod_load_kg_per_day := cod_load_kg_per_day
    ozone_requirement_kg_per_day := ozone_requirement_kg_per_day
    stages_needed := stages_needed
    num_reactor_trains := num_reactor_trains
    total_reactors := total_reactors
    num_ozone_generators := num_ozone_generators
    ozone_generator_cost := ozone_generator_cost
    cod_reduction_stages := cod_values
    pump_flow_rate_per_train := pump_flow_rate_per_train
    total_pump_flow_rate := total_pump_flow_rate
    recirculation_flow_rate := recirculation_flow_rate
    recirculation_pumps_required := recirculation_pumps_required
    total_influent_effluent_pumps := total_influent_effluent_pumps
    total_pumps := total_pumps
    aop_reactor_cost := aop_reactor_cost
    pump_cost := pump_cost
    required_filter_area := required_filter_area
    filter_cost := filter_cost
    filter_units := filter_units
    ph_adjustment_cost := ph_adjustment_cost
    piping_cost := piping_cost
    direct_costs := direct_costs
    epc_cost := epc_cost
    total_capex := total_capex
    monthly_ozone_power_cost := monthly_ozone_power_cost
    daily_recirculation_energy := daily_recirculation_energy
    monthly_pumping_cost := monthly_pumping_cost
    monthly_chemical_cost := monthly_chemical_cost
    monthly_labor_cost := monthly_labor_cost
    monthly_maintenance_cost := monthly_maintenance_cost
    total_monthly_opex := total_monthly_opex
    operators_required := operators_required
    num_20ft_containers := num_20ft_containers
    num_40ft_containers := num_40ft_containers
    container_cost := container_cost
    total_equipment_units := total_equipment_units }

/-- The whole engine: run the COD staging loop with the given fuel, then
derive every other quantity.  `none` exactly when the fuel does not cover
the loop's iteration count. -/
def calculate_design_values (fuel : ℕ) (p : ProcessInputs) (r : CostRates) :
    Option DesignResult :=
  (codLoop p.cod_target fuel p.cod_inlet 0 [p.cod_inlet]).map
    fun sv => designFromStaging p r sv.1 sv.2

/-- Baseline concrete process inputs (the dashboard's default widget values):
10 m³/day, 1000 ppm inlet COD, 75 ppm target, pH 7, 2.0 m³ reactors. -/
def P0 : ProcessInputs := ⟨10, 1000, 75, 7, 2⟩

/-- Concrete cost rates: the dashboard's default widget values (with the
maintenance percentage already divided by 100, as the caller does). -/
def R0 : CostRates :=
  ⟨650, 650, 650, 650, 650, 450, 3, 1/20, 1/4, 1/10, 3/10, 3/10,
   6000, 7000, 19/100, 1, 58⟩

/-- The unclamped COD sequence the loop records when it exits after `n`
stages: the inlet value followed by one 60%-reduced value per stage. -/
def codSeq (inlet : ℚ) (n : ℕ) : List ℚ :=
  (List.range (n + 1)).map fun i => inlet * (2/5) ^ i

lemma codSeq_eq (inlet : ℚ) (n : ℕ) :
    codSeq inlet n = inlet :: (List.range n).map fun k => inlet * (2/5) ^ (k + 1) := by
  rw [codSeq, List.range_succ_eq_map, List.map_cons, List.map_map]
  simp only [pow_zero, mul_one]
  rfl

/-- When the loop guard is already false, the loop exits at once, whatever
the fuel. -/
lemma codLoop_exit {target current : ℚ} (hc : ¬ target < current)
    (fuel : ℕ) (stages : ℕ) (values : List ℚ) :
    codLoop target fuel current stages values = some (stages, values) := by
  cases fuel <;> simp [codLoop, hc]

/-- Soundness of the loop: a successful run exits after exactly the first
iteration whose COD value is at or below the target, and the recorded list
extends the accumulator with one 60%-reduced value per executed iteration. -/
lemma codLoop_sound (target : ℚ) :
    ∀ (fuel : ℕ) (current : ℚ) (stages : ℕ) (values : List ℚ) (n : ℕ) (vs : List ℚ),
      codLoop target fuel current stages values = some (n, vs) →
      stages ≤ n ∧
      current * (2/5) ^ (n - stages) ≤ target ∧
      (∀ k, k < n - stages → target < current * (2/5) ^ k) ∧
      vs = values ++ (List.range (n - stages)).map fun k => current * (2/5) ^ (k + 1) := by
  intro fuel
  induction fuel with
  | zero =>
    intro current stages values n vs h
    rw [codLoop] at h
    split_ifs at h with hc
    obtain ⟨rfl, rfl⟩ : stages = n ∧ values = vs := by simpa using h
    refine ⟨le_rfl, ?_, by omega, by simp⟩
    simpa using not_lt.mp hc
  | succ fuel ih =>
    intro current stages values n vs h
    rw [codLoop] at h
    split_ifs at h with hc
    · obtain ⟨h1, h2, h3, h4⟩ := ih _ _ _ _ _ h
      have hms : n - stages = (n - (stages + 1)) + 1 := by omega
      refine ⟨by omega, ?_, ?_, ?_⟩
      · calc current * (2/5) ^ (n - stages)
            = current * (2/5) * (2/5) ^ (n - (stages + 1)) := by rw [hms]; ring
          _ ≤ target := h2
      · intro k hk
        rcases k with _ | k
        · simpa using hc
        · have hk' : k < n - (stages + 1) := by omega
          calc target < current * (2/5) * (2/5) ^ k := h3 k hk'
            _ = current * (2/5) ^ (k + 1) := by ring
      · rw [h4, hms, List.range_succ_eq_map, List.map_cons, List.map_map]
        have hfun : ((fun k => current * (2/5 : ℚ) ^ (k + 1)) ∘ Nat.succ)
            = fun k => current * (2/5) * (2/5) ^ (k + 1) := by
          funext k
          simp only [Function.comp_apply, Nat.succ_eq_add_one]
          ring
        rw [hfun]
        simp
    · obtain ⟨rfl, rfl⟩ : stages = n ∧ values = vs := by simpa using h
      refine ⟨le_rfl, ?_, by omega, by simp⟩
      simpa using not_lt.mp hc

/-- Completeness of the loop: fuel covering any index whose COD value meets
the target is enough for the loop to finish. -/
lemma codLoop_term (target : ℚ) :
    ∀ (fuel : ℕ) (current : ℚ) (stages : ℕ) (values : List ℚ) (j : ℕ),
      j ≤ fuel → current * (2/5) ^ j ≤ target →
      (codLoop target fuel current stages values).isSome = true := by
  intro fuel
  induction fuel with
  | zero =>
    intro current stages values j hj hle
    have hj0 : j = 0 := by omega
    subst hj0
    have hc : ¬ target < current := not_lt.mpr (by simpa using hle)
    rw [codLoop_exit hc]
    rfl
  | succ fuel ih =>
    intro current stages values j hj hle
    by_cases hc : target < current
    · rw [codLoop, if_pos hc]
      rcases j with _ | j
      · exact absurd hc (not_lt.mpr (by simpa using hle))
      · refine ih _ _ _ j (by omega) ?_
        calc current * (2/5) * (2/5) ^ j
            = current * (2/5) ^ (j + 1) := by ring
          _ ≤ target := hle
    · rw [codLoop_exit hc]
      rfl

/-- Two indices that are both the first to meet the target coincide. -/
lemma least_unique {inlet target : ℚ} {m n : ℕ}
    (hm : inlet * (2/5) ^ m ≤ target)
    (hm' : ∀ k < m, target < inlet * (2/5) ^ k)
    (hn : inlet * (2/5) ^ n ≤ target)
    (hn' : ∀ k < n, target < inlet * (2/5) ^ k) :
    m = n := by
  rcases Nat.lt_trichotomy m n with h | h | h
  · exact absurd hm (not_le.mpr (hn' m h))
  · exact h
  · exact absurd hn (not_le.mpr (hm' n h))

/-- Workhorse: a successful engine run is `designFromStaging` applied to the
least index whose COD value meets the target, together with the unclamped
COD sequence up to that index. -/
lemma calc_staging {fuel : ℕ} {p : ProcessInputs} {r : CostRates} {res : DesignResult}
    (h : calculate_design_values fuel p r = some res) :
    ∃ n : ℕ,
      p.cod_inlet * (2/5) ^ n ≤ p.cod_target ∧
      (∀ k < n, p.cod_target < p.cod_inlet * (2/5) ^ k) ∧
      res = designFromStaging p r n (codSeq p.cod_inlet n) := by
  rw [calculate_design_values] at h
  cases hopt : codLoop p.cod_target fuel p.cod_inlet 0 [p.cod_inlet] with
  | none => rw [hopt] at h; simp at h
  | some sv =>
    obtain ⟨n, vs⟩ := sv
    rw [hopt] at h
    simp only [Option.map_some'] at h
    obtain ⟨-, h2, h3, h4⟩ := codLoop_sound _ _ _ _ _ _ _ hopt
    simp only [Nat.sub_zero] at h2 h3 h4
    refine ⟨n, h2, h3, ?_⟩
    have h' : designFromStaging p r n vs = res := by simpa using h
    subst h'
    have hvs : vs = codSeq p.cod_inlet n := by
      rw [h4, codSeq_eq]
      simp
    rw [hvs]

/-- A fuel value at least the first index meeting the target makes the
engine succeed. -/
lemma calc_isSome {fuel : ℕ} {p : ProcessInputs} {r : CostRates} {n : ℕ}
    (hn : n ≤ fuel) (hle : p.cod_inlet * (2/5) ^ n ≤ p.cod_target) :
    (calculate_design_values fuel p r).isSome = true := by
  rw [calculate_design_values]
  cases hopt : codLoop p.cod_target fuel p.cod_inlet 0 [p.cod_inlet] with
  | none =>
    have := codLoop_term p.cod_target fuel p.cod_inlet 0 [p.cod_inlet] n hn hle
    rw [hopt] at this
    simp at this
  | some sv => rfl

/-- Closed-form evaluation of a run: once the least index meeting the target
is exhibited, the run's value is fixed. -/
lemma calc_eq_of_least {fuel n : ℕ} {p : ProcessInputs} {r : CostRates}
    (hn : n ≤ fuel) (hle : p.cod_inlet * (2/5) ^ n ≤ p.cod_target)
    (hlt : ∀ k < n, p.cod_target < p.cod_inlet * (2/5) ^ k) :
    calculate_design_values fuel p r
      = some (designFromStaging p r n (codSeq p.cod_inlet n)) := by
  have hs := calc_isSome (r := r) hn hle
  obtain ⟨res, hres⟩ := Option.isSome_iff_exists.mp hs
  obtain ⟨m, hle', hlt', heq⟩ := calc_staging hres
  have hm : m = n := least_unique hle' hlt' hle hlt
  rw [hres, heq, hm]

/-! Field formulas of `designFromStaging`, each holding definitionally. -/

lemma design_cod_load (p : ProcessInputs) (r : CostRates) (n : ℕ) (vs : List ℚ) :
    (designFromStaging p r n vs).cod_load_kg_per_day = p.flowrate * p.cod_inlet / 1000 := rfl

lemma design_ozone_req (p : ProcessInputs) (r : CostRates) (n : ℕ) (vs : List ℚ) :
    (designFromStaging p r n vs).ozone_requirement_kg_per_day
      = (1/4 : ℚ) * (designFromStaging p r n vs).cod_load_kg_per_day := rfl

lemma design_stages (p : ProcessInputs) (r : CostRates) (n : ℕ) (vs : List ℚ) :
    (designFromStaging p r n vs).stages_needed = max 2 (min 4 n) := rfl

lemma design_trains (p : ProcessInputs) (r : CostRates) (n : ℕ) (vs : List ℚ) :
    (designFromStaging p r n vs).num_reactor_trains
      = (Int.ceil ((p.flowrate / 24) / (p.reactor_size / 2))).toNat := rfl

lemma design_cod_stages (p : ProcessInputs) (r : CostRates) (n : ℕ) (vs : List ℚ) :
    (designFromStaging p r n vs).cod_reduction_stages = vs := rfl

lemma design_total_reactors (p : ProcessInputs) (r : CostRates) (n : ℕ) (vs : List ℚ) :
    (designFromStaging p r n vs).total_reactors
      = (designFromStaging p r n vs).num_reactor_trains
          * (designFromStaging p r n vs).stages_needed := rfl

lemma design_num_generators (p : ProcessInputs) (r : CostRates) (n : ℕ) (vs : List ℚ) :
    (designFromStaging p r n vs).num_ozone_generators
      = (designFromStaging p r n vs).total_reactors * 2 := rfl

lemma design_gen_cost (p : ProcessInputs) (r : CostRates) (n : ℕ) (vs : List ℚ) :
    (designFromStaging p r n vs).ozone_generator_cost
      = ((designFromStaging p r n vs).num_ozone_generators : ℚ)
          * r.ozone_generator_unit_cost := rfl

lemma design_total_pumps (p : ProcessInputs) (r : CostRates) (n : ℕ) (vs : List ℚ) :
    (designFromStaging p r n vs).total_pumps
      = (designFromStaging p r n vs).num_reactor_trains * 4 + 2 := rfl

lemma design_aop_cost (p : ProcessInputs) (r : CostRates) (n : ℕ) (vs : List ℚ) :
    (designFromStaging p r n vs).aop_reactor_cost
      = r.aop_reactor_unit_cost * ((designFromStaging p r n vs).total_reactors : ℚ) := rfl

lemma design_pump_cost (p : ProcessInputs) (r : CostRates) (n : ℕ) (vs : List ℚ) :
    (designFromStaging p r n vs).pump_cost
      = r.pump_unit_cost * ((designFromStaging p r n vs).total_pumps : ℚ) := rfl

lemma design_pump_flow (p : ProcessInputs) (r : CostRates) (n : ℕ) (vs : List ℚ) :
    (designFromStaging p r n vs).total_pump_flow_rate
      = p.reactor_size / (1/4 : ℚ)
          * ((designFromStaging p r n vs).num_reactor_trains : ℚ) := rfl

lemma design_area (p : ProcessInputs) (r : CostRates) (n : ℕ) (vs : List ℚ) :
    (designFromStaging p r n vs).required_filter_area
      = (designFromStaging p r n vs).total_pump_flow_rate / 10 := rfl

lemma design_filter_units (p : ProcessInputs) (r : CostRates) (n : ℕ) (vs : List ℚ) :
    (designFromStaging p r n vs).filter_units
      = max 2 (Int.ceil ((designFromStaging p r n vs).required_filter_area / 5)).toNat := rfl

lemma design_filter_cost (p : ProcessInputs) (r : CostRates) (n : ℕ) (vs : List ℚ) :
    (designFromStaging p r n vs).filter_cost
      = r.filter_unit_cost * (designFromStaging p r n vs).required_filter_area := rfl

lemma design_ph_cost (p : ProcessInputs) (r : CostRates) (n : ℕ) (vs : List ℚ) :
    (designFromStaging p r n vs).ph_adjustment_cost = r.ph_adjustment_unit_cost := rfl

lemma design_units (p : ProcessInputs) (r : CostRates) (n : ℕ) (vs : List ℚ) :
    (designFromStaging p r n vs).total_equipment_units
      = (designFromStaging p r n vs).total_reactors
          + (designFromStaging p r n vs).filter_units := rfl

lemma design_c20 (p : ProcessInputs) (r : CostRates) (n : ℕ) (vs : List ℚ) :
    (designFromStaging p r n vs).num_20ft_containers
      = (containerCounts p.flowrate (designFromStaging p r n vs).total_equipment_units).1 := rfl

lemma design_c40 (p : ProcessInputs) (r : CostRates) (n : ℕ) (vs : List ℚ) :
    (designFromStaging p r n vs).num_40ft_containers
      = (containerCounts p.flowrate (designFromStaging p r n vs).total_equipment_units).2 := rfl

lemma design_container_cost (p : ProcessInputs) (r : CostRates) (n : ℕ) (vs : List ℚ) :
    (designFromStaging p r n vs).container_cost
      = ((designFromStaging p r n vs).num_20ft_containers : ℚ) * r.container_20ft_cost
        + ((designFromStaging p r n vs).num_40ft_containers : ℚ) * r.container_40ft_cost := rfl

lemma design_piping_cost (p : ProcessInputs) (r : CostRates) (n : ℕ) (vs : List ℚ) :
    (designFromStaging p r n vs).piping_cost
      = ((designFromStaging p r n vs).aop_reactor_cost
          + (designFromStaging p r n vs).pump_cost) * r.piping_factor := rfl

lemma design_direct_costs (p : ProcessInputs) (r : CostRates) (n : ℕ) (vs : List ℚ) :
    (designFromStaging p r n vs).direct_costs
      = (designFromStaging p r n vs).aop_reactor_cost
        + (designFromStaging p r n vs).ozone_generator_cost
        + (designFromStaging p r n vs).pump_cost
        + (designFromStaging p r n vs).filter_cost
        + (designFromStaging p r n vs).ph_adjustment_cost
        + (designFromStaging p r n vs).piping_cost
        + (designFromStaging p r n vs).container_cost := rfl

lemma design_epc_cost (p : ProcessInputs) (r : CostRates) (n : ℕ) (vs : List ℚ) :
    (designFromStaging p r n vs).epc_cost
      = (designFromStaging p r n vs).direct_costs * r.epc_factor := rfl

lemma design_total_capex (p : ProcessInputs) (r : CostRates) (n : ℕ) (vs : List ℚ) :
    (designFromStaging p r n vs).total_capex
      = (designFromStaging p r n vs).direct_costs
        + (designFromStaging p r n vs).epc_cost := rfl

lemma design_ozone_power_cost (p : ProcessInputs) (r : CostRates) (n : ℕ) (vs : List ℚ) :
    (designFromStaging p r n vs).monthly_ozone_power_cost
      = (designFromStaging p r n vs).ozone_requirement_kg_per_day
          * r.ozone_power_consumption * 30 * r.electricity_cost := rfl

lemma design_operators (p : ProcessInputs) (r : CostRates) (n : ℕ) (vs : List ℚ) :
    (designFromStaging p r n vs).operators_required
      = max 1 (Int.ceil (((designFromStaging p r n vs).total_reactors : ℚ) / 8)).toNat := rfl

/-- Cost of a `(num_20ft, num_40ft)` container selection. -/
def contCost (c20 c40 : ℚ) (pr : ℕ × ℕ) : ℚ :=
  (pr.1 : ℚ) * c20 + (pr.2 : ℚ) * c40

lemma contCost_design (p : ProcessInputs) (r : CostRates) (n : ℕ) (vs : List ℚ) :
    (designFromStaging p r n vs).container_cost
      = contCost r.container_20ft_cost r.container_40ft_cost
          (containerCounts p.flowrate (designFromStaging p r n vs).total_equipment_units) := rfl

/-- Closed form of the 40ft-branch cost above the single-container range. -/
lemma cont40_cases (c20 c40 : ℚ) (u : ℕ) (h : 12 < u) :
    contCost c20 c40 (containerCounts40 u)
      = ((u / 12 : ℕ) : ℚ) * c40
        + (if 0 < u % 12 then (if u % 12 ≤ 6 then c20 else c40) else 0) := by
  rw [contCost, containerCounts40, if_neg (by omega)]
  split_ifs <;> push_cast <;> ring

/-- In the 40ft branch the cost is never below one 40ft container. -/
lemma cont40_ge {c20 c40 : ℚ} (h0 : 0 ≤ c20) (hcc : c20 ≤ c40) (u : ℕ) :
    c40 ≤ contCost c20 c40 (containerCounts40 u) := by
  have hc40 : 0 ≤ c40 := h0.trans hcc
  by_cases h : u ≤ 12
  · simp [contCost, containerCounts40, h]
  · rw [cont40_cases c20 c40 u (by omega)]
    have hk : 1 ≤ u / 12 := by omega
    have hkq : (1 : ℚ) ≤ ((u / 12 : ℕ) : ℚ) := by exact_mod_cast hk
    have key : c40 ≤ ((u / 12 : ℕ) : ℚ) * c40 := by nlinarith
    split_ifs <;> linarith

/-- The 40ft-branch cost is monotone in the housed unit count, provided a
20ft container does not cost more than a 40ft one. -/
lemma cont40_mono {c20 c40 : ℚ} (h0 : 0 ≤ c20) (hcc : c20 ≤ c40)
    {u₁ u₂ : ℕ} (hu : u₁ ≤ u₂) :
    contCost c20 c40 (containerCounts40 u₁) ≤ contCost c20 c40 (containerCounts40 u₂) := by
  have hc40 : 0 ≤ c40 := h0.trans hcc
  by_cases h2 : u₂ ≤ 12
  · have h1 : u₁ ≤ 12 := hu.trans h2
    simp [contCost, containerCounts40, h1, h2]
  · by_cases h1 : u₁ ≤ 12
    · have hx : contCost c20 c40 (containerCounts40 u₁) = c40 := by
        simp [contCost, containerCounts40, h1]
      rw [hx]
      exact cont40_ge h0 hcc u₂
    · rw [cont40_cases c20 c40 u₁ (by omega), cont40_cases c20 c40 u₂ (by omega)]
      rcases Nat.lt_or_ge (u₁ / 12) (u₂ / 12) with hk | hk
      · have hkq : ((u₁ / 12 : ℕ) : ℚ) + 1 ≤ ((u₂ / 12 : ℕ) : ℚ) := by exact_mod_cast hk
        have key : ((u₁ / 12 : ℕ) : ℚ) * c40 + c40 ≤ ((u₂ / 12 : ℕ) : ℚ) * c40 := by
          nlinarith
        split_ifs <;> linarith
      · have hkk : u₁ / 12 = u₂ / 12 := by omega
        have hr : u₁ % 12 ≤ u₂ % 12 := by omega
        rw [hkk]
        split_ifs <;> first | linarith | (exfalso; omega)

/-- Full monotonicity of the container cost in flowrate and unit count,
provided a 20ft container does not cost more than a 40ft one. -/
lemma containerCost_mono {c20 c40 : ℚ} (h0 : 0 ≤ c20) (hcc : c20 ≤ c40)
    {f₁ f₂ : ℚ} (hf : f₁ ≤ f₂) {u₁ u₂ : ℕ} (hu : u₁ ≤ u₂) :
    contCost c20 c40 (containerCounts f₁ u₁)
      ≤ contCost c20 c40 (containerCounts f₂ u₂) := by
  rw [containerCounts, containerCounts]
  by_cases h2 : f₂ ≤ 15
  · rw [if_pos (hf.trans h2), if_pos h2]
  · rw [if_neg h2]
    by_cases h1 : f₁ ≤ 15
    · rw [if_pos h1]
      have hx : contCost c20 c40 ((1, 0) : ℕ × ℕ) = c20 := by simp [contCost]
      rw [hx]
      exact hcc.trans (cont40_ge h0 hcc u₂)
    · rw [if_neg h1]
      exact cont40_mono h0 hcc hu

/-- The selection always requests at least one container. -/
lemma containerCounts_pos (f : ℚ) (u : ℕ) :
    1 ≤ (containerCounts f u).1 + (containerCounts f u).2 := by
  rw [containerCounts]
  split_ifs with h
  · simp
  · rw [containerCounts40]
    split_ifs <;> simp <;> omega

/-- Evaluating an `Int.ceil`-then-`toNat` count to an exact value from
rational bounds. -/
lemma ceil_toNat_eq {x : ℚ} {m : ℕ} (h0 : (m : ℚ) - 1 < x) (h1 : x ≤ m) :
    (Int.ceil x).toNat = m := by
  have hle : Int.ceil x ≤ (m : ℤ) := Int.ceil_le.mpr (by exact_mod_cast h1)
  have hgt : ((m : ℤ) - 1 : ℤ) < Int.ceil x := by
    have : ((m : ℤ) - 1 : ℚ) < x := by push_cast; exact h0
    exact_mod_cast this.trans_le (Int.le_ceil x)
  omega

/-! Concrete inputs used by the test-style statements and witnesses. -/

/-- Baseline inputs with 48 m³/day flow (the spec's hydraulic example). -/
def P48 : ProcessInputs := ⟨48, 1000, 75, 7, 2⟩

/-- Inputs whose COD target 900 is met after one natural stage. -/
def P900 : ProcessInputs := ⟨10, 1000, 900, 7, 2⟩

/-- Inputs whose COD target `0.001` needs 16 natural stages. -/
def PMicro : ProcessInputs := ⟨10, 1000, 1/1000, 7, 2⟩

/-- Degenerate inputs with target equal to the inlet COD. -/
def Pdeg : ProcessInputs := ⟨10, 1000, 1000, 7, 2⟩

/-- Engine value at the baseline inputs (the loop exits after 3 stages). -/
def res0 : DesignResult := designFromStaging P0 R0 3 (codSeq P0.cod_inlet 3)

/-- Engine value at the 48 m³/day inputs. -/
def res48 : DesignResult := designFromStaging P48 R0 3 (codSeq P48.cod_inlet 3)

/-- Engine value at the target-900 inputs (one natural stage). -/
def res900 : DesignResult := designFromStaging P900 R0 1 (codSeq P900.cod_inlet 1)

/-- Engine value at the target-0.001 inputs (16 natural stages). -/
def resMicro : DesignResult := designFromStaging PMicro R0 16 (codSeq PMicro.cod_inlet 16)

lemma calc_P0 : calculate_design_values 20 P0 R0 = some res0 :=
  calc_eq_of_least (by norm_num) (by norm_num [P0])
    (by intro k hk; interval_cases k <;> norm_num [P0])

lemma calc_P48 : calculate_design_values 20 P48 R0 = some res48 :=
  calc_eq_of_least (by norm_num) (by norm_num [P48])
    (by intro k hk; interval_cases k <;> norm_num [P48])

lemma calc_P900 : calculate_design_values 20 P900 R0 = some res900 :=
  calc_eq_of_least (by norm_num) (by norm_num [P900])
    (by intro k hk; interval_cases k <;> norm_num [P900])

lemma calc_PMicro : calculate_design_values 20 PMicro R0 = some resMicro :=
  calc_eq_of_least (by norm_num) (by norm_num [PMicro])
    (by intro k hk; interval_cases k <;> norm_num [PMicro])

/-- C1: for valid inputs the engine reports `stages_needed = max 2 (min 4 n)`
where `n` is the least number of 60% reductions taking the inlet COD to or
below the target, while `cod_reduction_stages` records the full unclamped
sequence `inlet * 0.4^i`, `i = 0..n`.  In particular inlet 1000 with target
900 reports 2 stages, and inlet 1000 with target 0.001 reports 4 stages with
the full 17-entry sequence recorded. -/
theorem spec_C1 :
    (∀ (fuel : ℕ) (p : ProcessInputs) (r : CostRates) (res : DesignResult),
        0 < p.cod_target → p.cod_target < p.cod_inlet →
        calculate_design_values fuel p r = some res →
        ∃ n : ℕ,
          (p.cod_inlet * (2/5) ^ n ≤ p.cod_target ∧
            ∀ k < n, p.cod_target < p.cod_inlet * (2/5) ^ k) ∧
          res.stages_needed = max 2 (min 4 n) ∧
          res.cod_reduction_stages = codSeq p.cod_inlet n)
    ∧ (calculate_design_values 20 P900 R0).map DesignResult.stages_needed = some 2
    ∧ (calculate_design_values 20 PMicro R0).map DesignResult.stages_needed = some 4
    ∧ (calculate_design_values 20 PMicro R0).map
        (fun res => res.cod_reduction_stages.length) = some 17 := by
  refine ⟨?_, ?_, ?_, ?_⟩
  · intro fuel p r res h1 h2 hres
    obtain ⟨n, hle, hlt, heq⟩ := calc_staging hres
    exact ⟨n, ⟨hle, hlt⟩, by rw [heq, design_stages], by rw [heq, design_cod_stages]⟩
  · rw [calc_P900]
    simp only [Option.map_some', res900, design_stages]
    decide
  · rw [calc_PMicro]
    simp only [Option.map_some', resMicro, design_stages]
    decide
  · rw [calc_PMicro]
    simp only [Option.map_some', resMicro, design_cod_stages, codSeq]
    simp

/-- Witness for C1 at the baseline inputs. -/
theorem spec_C1_witness :
    (0 : ℚ) < P0.cod_target ∧ P0.cod_target < P0.cod_inlet ∧
    (∃ n : ℕ,
      (P0.cod_inlet * (2/5) ^ n ≤ P0.cod_target ∧
        ∀ k < n, P0.cod_target < P0.cod_inlet * (2/5) ^ k) ∧
      res0.stages_needed = max 2 (min 4 n) ∧
      res0.cod_reduction_stages = codSeq P0.cod_inlet n) :=
  ⟨by norm_num [P0], by norm_num [P0],
    spec_C1.1 20 P0 R0 res0 (by norm_num [P0]) (by norm_num [P0]) calc_P0⟩

/-- C2: the CAPEX roll-up identities of the engine: `direct_costs` is the
exact sum of its seven components, `piping_cost` and `filter_cost` follow
their stated formulas (filter cost scales with the continuous area), and
`total_capex = direct_costs + epc_cost` with `epc_cost` a factor of the
direct costs. -/
theorem spec_C2 (fuel : ℕ) (p : ProcessInputs) (r : CostRates) (res : DesignResult)
    (hres : calculate_design_values fuel p r = some res) :
    res.direct_costs
      = res.aop_reactor_cost + res.ozone_generator_cost + res.pump_cost
        + res.filter_cost + res.ph_adjustment_cost + res.piping_cost + res.container_cost
    ∧ res.piping_cost = (res.aop_reactor_cost + res.pump_cost) * r.piping_factor
    ∧ res.filter_cost = r.filter_unit_cost * res.required_filter_area
    ∧ res.required_filter_area = res.total_pump_flow_rate / 10
    ∧ res.epc_cost = res.direct_costs * r.epc_factor
    ∧ res.total_capex = res.direct_costs + res.epc_cost := by
  obtain ⟨n, -, -, heq⟩ := calc_staging hres
  subst heq
  exact ⟨rfl, rfl, rfl, rfl, rfl, rfl⟩

/-- Witness for C2 at the baseline inputs. -/
theorem spec_C2_witness :
    res0.direct_costs
      = res0.aop_reactor_cost + res0.ozone_generator_cost + res0.pump_cost
        + res0.filter_cost + res0.ph_adjustment_cost + res0.piping_cost + res0.container_cost
    ∧ res0.piping_cost = (res0.aop_reactor_cost + res0.pump_cost) * R0.piping_factor
    ∧ res0.filter_cost = R0.filter_unit_cost * res0.required_filter_area
    ∧ res0.required_filter_area = res0.total_pump_flow_rate / 10
    ∧ res0.epc_cost = res0.direct_costs * R0.epc_factor
    ∧ res0.total_capex = res0.direct_costs + res0.epc_cost :=
  spec_C2 20 P0 R0 res0 calc_P0

/-- Counterexample for C3: at the baseline inputs the monthly ozone power
cost is 42.75 USD, not the 171 USD the claim's `cod_removed_kg_per_day`
basis would give — the engine prices the 0.25-scaled ozone mass, not the
removed COD mass. -/
theorem spec_C3_counterexample :
    res0.monthly_ozone_power_cost
      ≠ res0.cod_load_kg_per_day * R0.ozone_power_consumption * 30
          * R0.electricity_cost := by
  have h1 : res0.monthly_ozone_power_cost = 171/4 := by
    rw [res0, design_ozone_power_cost, design_ozone_req, design_cod_load]
    norm_num [P0, R0]
  have h2 : res0.cod_load_kg_per_day * R0.ozone_power_consumption * 30
      * R0.electricity_cost = 171 := by
    rw [res0, design_cod_load]
    norm_num [P0, R0]
  rw [h1, h2]
  norm_num

/-- C3 (amended): the monthly ozone-generation power cost equals
`ozone_requirement_kg_per_day * ozone_kwh_per_kg * 30 * electricity_cost`,
where the ozone requirement is `0.25 *` the daily COD load
`flowrate * cod_inlet / 1000`. -/
theorem spec_C3_amended (fuel : ℕ) (p : ProcessInputs) (r : CostRates)
    (res : DesignResult) (hres : calculate_design_values fuel p r = some res) :
    res.monthly_ozone_power_cost
      = res.ozone_requirement_kg_per_day * r.ozone_power_consumption * 30
          * r.electricity_cost
    ∧ res.ozone_requirement_kg_per_day = (1/4 : ℚ) * res.cod_load_kg_per_day
    ∧ res.cod_load_kg_per_day = p.flowrate * p.cod_inlet / 1000 := by
  obtain ⟨n, -, -, heq⟩ := calc_staging hres
  subst heq
  exact ⟨rfl, rfl, rfl⟩

/-- Witness for the amended C3 at the baseline inputs. -/
theorem spec_C3_amended_witness :
    res0.monthly_ozone_power_cost
      = res0.ozone_requirement_kg_per_day * R0.ozone_power_consumption * 30
          * R0.electricity_cost
    ∧ res0.ozone_requirement_kg_per_day = (1/4 : ℚ) * res0.cod_load_kg_per_day
    ∧ res0.cod_load_kg_per_day = P0.flowrate * P0.cod_inlet / 1000 :=
  spec_C3_amended 20 P0 R0 res0 calc_P0

/-- The container selection policy, stated over its two inputs. -/
lemma containerCounts_policy (f : ℚ) (u : ℕ) :
    (f ≤ 15 → containerCounts f u = (1, 0))
    ∧ (15 < f → u ≤ 12 → containerCounts f u = (0, 1))
    ∧ (15 < f → 12 < u →
        (containerCounts f u).2 = u / 12 + (if 6 < u % 12 then 1 else 0)
        ∧ (containerCounts f u).1
          = (if 0 < u % 12 ∧ u % 12 ≤ 6 then 1 else 0)) := by
  refine ⟨?_, ?_, ?_⟩
  · intro h
    simp [containerCounts, h]
  · intro h h2
    rw [containerCounts, if_neg (not_le.mpr h), containerCounts40, if_pos h2]
  · intro h h2
    rw [containerCounts, if_neg (not_le.mpr h), containerCounts40, if_neg (by omega)]
    constructor
    · split_ifs <;> simp <;> omega
    · split_ifs <;> simp_all <;> omega

/-- C4: the exact ordered container policy: a single 20ft container whenever
`flowrate ≤ 15`; otherwise one 40ft container when the equipment fits;
otherwise `u / 12` 40ft containers plus a 20ft one for a remainder of 1..6,
or one further 40ft container for a remainder above 6; the container cost
and the equipment count follow their stated formulas. -/
theorem spec_C4 (fuel : ℕ) (p : ProcessInputs) (r : CostRates) (res : DesignResult)
    (hres : calculate_design_values fuel p r = some res) :
    res.total_equipment_units = res.total_reactors + res.filter_units
    ∧ res.container_cost
      = (res.num_20ft_containers : ℚ) * r.container_20ft_cost
        + (res.num_40ft_containers : ℚ) * r.container_40ft_cost
    ∧ (p.flowrate ≤ 15 → res.num_20ft_containers = 1 ∧ res.num_40ft_containers = 0)
    ∧ (15 < p.flowrate → res.total_equipment_units ≤ 12 →
        res.num_20ft_containers = 0 ∧ res.num_40ft_containers = 1)
    ∧ (15 < p.flowrate → 12 < res.total_equipment_units →
        res.num_40ft_containers
          = res.total_equipment_units / 12
            + (if 6 < res.total_equipment_units % 12 then 1 else 0)
        ∧ res.num_20ft_containers
          = (if 0 < res.total_equipment_units % 12 ∧ res.total_equipment_units % 12 ≤ 6
              then 1 else 0)) := by
  obtain ⟨n, -, -, heq⟩ := calc_staging hres
  subst heq
  obtain ⟨hp1, hp2, hp3⟩ :=
    containerCounts_policy p.flowrate
      (designFromStaging p r n (codSeq p.cod_inlet n)).total_equipment_units
  refine ⟨rfl, rfl, ?_, ?_, ?_⟩
  · intro h
    rw [design_c20, design_c40, hp1 h]
    exact ⟨rfl, rfl⟩
  · intro h h2
    rw [design_c20, design_c40, hp2 h h2]
    exact ⟨rfl, rfl⟩
  · intro h h2
    obtain ⟨h40, h20⟩ := hp3 h h2
    rw [design_c20, design_c40]
    exact ⟨h40, h20⟩

/-- Witness for C4 at the baseline inputs, whose flowrate 10 lies in the
20ft branch. -/
theorem spec_C4_witness :
    res0.total_equipment_units = res0.total_reactors + res0.filter_units
    ∧ res0.container_cost
      = (res0.num_20ft_containers : ℚ) * R0.container_20ft_cost
        + (res0.num_40ft_containers : ℚ) * R0.container_40ft_cost
    ∧ res0.num_20ft_containers = 1 ∧ res0.num_40ft_containers = 0 := by
  obtain ⟨h1, h2, h3, -, -⟩ := spec_C4 20 P0 R0 res0 calc_P0
  obtain ⟨h4, h5⟩ := h3 (by norm_num [P0])
  exact ⟨h1, h2, h4, h5⟩

/-- C5: the train count is the hydraulic ceiling
`ceil((flowrate/24) / (reactor_size/2))`, depends only on flowrate and
reactor size, gives 2 trains at 48 m³/day with 2.0 m³ reactors, and
`total_reactors = num_reactor_trains * stages_needed`. -/
theorem spec_C5 :
    (∀ (fuel : ℕ) (p : ProcessInputs) (r : CostRates) (res : DesignResult),
        0 < p.flowrate → 0 < p.reactor_size →
        calculate_design_values fuel p r = some res →
        (res.num_reactor_trains : ℤ)
            = Int.ceil ((p.flowrate / 24) / (p.reactor_size / 2))
          ∧ res.total_reactors = res.num_reactor_trains * res.stages_needed)
    ∧ (∀ (fuel₁ fuel₂ : ℕ) (p₁ p₂ : ProcessInputs) (r₁ r₂ : CostRates)
          (res₁ res₂ : DesignResult),
        p₁.flowrate = p₂.flowrate → p₁.reactor_size = p₂.reactor_size →
        calculate_design_values fuel₁ p₁ r₁ = some res₁ →
        calculate_design_values fuel₂ p₂ r₂ = some res₂ →
        res₁.num_reactor_trains = res₂.num_reactor_trains)
    ∧ (calculate_design_values 20 P48 R0).map DesignResult.num_reactor_trains
        = some 2 := by
  refine ⟨?_, ?_, ?_⟩
  · intro fuel p r res hf hrs hres
    obtain ⟨n, -, -, heq⟩ := calc_staging hres
    subst heq
    refine ⟨?_, rfl⟩
    rw [design_trains]
    have hx : 0 < p.flowrate / 24 / (p.reactor_size / 2) := by positivity
    exact Int.toNat_of_nonneg (le_of_lt (Int.ceil_pos.mpr hx))
  · intro fuel₁ fuel₂ p₁ p₂ r₁ r₂ res₁ res₂ hflow hrs h₁ h₂
    obtain ⟨n₁, -, -, heq₁⟩ := calc_staging h₁
    obtain ⟨n₂, -, -, heq₂⟩ := calc_staging h₂
    subst heq₁
    subst heq₂
    rw [design_trains, design_trains, hflow, hrs]
  · rw [calc_P48]
    simp only [Option.map_some', res48, design_trains]
    rw [ceil_toNat_eq (m := 2) (by norm_num [P48]) (by norm_num [P48])]

/-- Witness for C5 at the 48 m³/day inputs. -/
theorem spec_C5_witness :
    (0 : ℚ) < P48.flowrate ∧ (0 : ℚ) < P48.reactor_size
    ∧ (res48.num_reactor_trains : ℤ)
        = Int.ceil ((P48.flowrate / 24) / (P48.reactor_size / 2))
    ∧ res48.total_reactors = res48.num_reactor_trains * res48.stages_needed := by
  have h := spec_C5.1 20 P48 R0 res48 (by norm_num [P48]) (by norm_num [P48]) calc_P48
  exact ⟨by norm_num [P48], by norm_num [P48], h.1, h.2⟩

/-- C7: on the validated domain the staging loop terminates after exactly
the least `n` with `cod_inlet * 0.4^n ≤ cod_target` iterations, so some
fuel makes the engine return a result whose recorded sequence has `n + 1`
entries. -/
theorem spec_C7 (p : ProcessInputs) (r : CostRates)
    (h1 : 0 < p.cod_target) (h2 : p.cod_target < p.cod_inlet) :
    ∃ (n fuel : ℕ) (res : DesignResult),
      (p.cod_inlet * (2/5) ^ n ≤ p.cod_target ∧
        ∀ k < n, p.cod_target < p.cod_inlet * (2/5) ^ k) ∧
      calculate_design_values fuel p r = some res ∧
      res.cod_reduction_stages.length = n + 1 ∧
      res.stages_needed = max 2 (min 4 n) := by
  have hinlet : 0 < p.cod_inlet := h1.trans h2
  obtain ⟨n₀, hn₀⟩ :=
    exists_pow_lt_of_lt_one (div_pos h1 hinlet) (by norm_num : (2/5 : ℚ) < 1)
  have hle : p.cod_inlet * (2/5) ^ n₀ ≤ p.cod_target := by
    have hmul := (lt_div_iff hinlet).mp hn₀
    calc p.cod_inlet * (2/5) ^ n₀ = (2/5) ^ n₀ * p.cod_inlet := mul_comm _ _
      _ ≤ p.cod_target := le_of_lt hmul
  have hs := calc_isSome (r := r) (le_refl n₀) hle
  obtain ⟨res, hres⟩ := Option.isSome_iff_exists.mp hs
  obtain ⟨n, hle', hlt', heq⟩ := calc_staging hres
  refine ⟨n, n₀, res, ⟨hle', hlt'⟩, hres, ?_, by rw [heq, design_stages]⟩
  rw [heq, design_cod_stages, codSeq]
  simp

/-- Witness for C7 at the baseline inputs. -/
theorem spec_C7_witness :
    (0 : ℚ) < P0.cod_target ∧ P0.cod_target < P0.cod_inlet ∧
    ∃ (n fuel : ℕ) (res : DesignResult),
      (P0.cod_inlet * (2/5) ^ n ≤ P0.cod_target ∧
        ∀ k < n, P0.cod_target < P0.cod_inlet * (2/5) ^ k) ∧
      calculate_design_values fuel P0 R0 = some res ∧
      res.cod_reduction_stages.length = n + 1 ∧
      res.stages_needed = max 2 (min 4 n) :=
  ⟨by norm_num [P0], by norm_num [P0],
    spec_C7 P0 R0 (by norm_num [P0]) (by norm_num [P0])⟩

/-- Counterexample for C8: with target equal to the inlet (both positive)
the loop guard fails at entry, so the engine terminates even with zero
fuel — the claimed nontermination does not occur. -/
theorem spec_C8_counterexample :
    (0 : ℚ) < Pdeg.cod_target ∧ Pdeg.cod_inlet ≤ Pdeg.cod_target ∧
    (calculate_design_values 0 Pdeg R0).isSome = true := by
  refine ⟨by norm_num [Pdeg], by norm_num [Pdeg], ?_⟩
  rw [calculate_design_values,
    codLoop_exit (by norm_num [Pdeg]) 0 0 [Pdeg.cod_inlet]]
  rfl

/-- C8 (amended): for `cod_target ≥ cod_inlet` the loop terminates at once
with zero iterations — for any fuel the engine returns the result built
from a raw stage count of 0, which clamps to `stages_needed = 2` and
records only the inlet value. -/
theorem spec_C8_amended (fuel : ℕ) (p : ProcessInputs) (r : CostRates)
    (h : p.cod_inlet ≤ p.cod_target) :
    calculate_design_values fuel p r
      = some (designFromStaging p r 0 [p.cod_inlet])
    ∧ ∀ res, calculate_design_values fuel p r = some res →
        res.stages_needed = 2 ∧ res.cod_reduction_stages = [p.cod_inlet] := by
  have hc : ¬ p.cod_target < p.cod_inlet := not_lt.mpr h
  have hloop := codLoop_exit hc fuel 0 [p.cod_inlet]
  have hcalc : calculate_design_values fuel p r
      = some (designFromStaging p r 0 [p.cod_inlet]) := by
    rw [calculate_design_values, hloop]
    rfl
  refine ⟨hcalc, ?_⟩
  intro res hres
  rw [hcalc] at hres
  have hres' : designFromStaging p r 0 [p.cod_inlet] = res := by simpa using hres
  subst hres'
  refine ⟨?_, by rw [design_cod_stages]⟩
  rw [design_stages]
  decide

/-- Witness for the amended C8 at target = inlet = 1000. -/
theorem spec_C8_amended_witness :
    Pdeg.cod_inlet ≤ Pdeg.cod_target ∧
    calculate_design_values 5 Pdeg R0
      = some (designFromStaging Pdeg R0 0 [Pdeg.cod_inlet]) ∧
    (designFromStaging Pdeg R0 0 [Pdeg.cod_inlet]).stages_needed = 2 := by
  have h := spec_C8_amended 5 Pdeg R0 (by norm_num [Pdeg])
  exact ⟨by norm_num [Pdeg], h.1, (h.2 _ h.1).1⟩

/-- C9: implicit floors at the interface: at least one train, a stage count
in {2, 3, 4}, at least 2 reactors, `total_pumps = 4 * trains + 2 ≥ 6`, at
least 2 filter units, at least one operator, and at least one container. -/
theorem spec_C9 (fuel : ℕ) (p : ProcessInputs) (r : CostRates) (res : DesignResult)
    (hf : 0 < p.flowrate) (h1 : 0 < p.cod_target) (h2 : p.cod_target < p.cod_inlet)
    (hrs : p.reactor_size = 3/2 ∨ p.reactor_size = 2)
    (hres : calculate_design_values fuel p r = some res) :
    1 ≤ res.num_reactor_trains
    ∧ (res.stages_needed = 2 ∨ res.stages_needed = 3 ∨ res.stages_needed = 4)
    ∧ 2 ≤ res.total_reactors
    ∧ res.total_pumps = 4 * res.num_reactor_trains + 2
    ∧ 6 ≤ res.total_pumps
    ∧ 2 ≤ res.filter_units
    ∧ 1 ≤ res.operators_required
    ∧ 1 ≤ res.num_20ft_containers + res.num_40ft_containers := by
  obtain ⟨n, -, -, heq⟩ := calc_staging hres
  subst heq
  have hrs0 : 0 < p.reactor_size := by
    rcases hrs with h | h <;> rw [h] <;> norm_num
  have hx : 0 < p.flowrate / 24 / (p.reactor_size / 2) := by positivity
  have htr : 1 ≤ (designFromStaging p r n (codSeq p.cod_inlet n)).num_reactor_trains := by
    rw [design_trains]
    have := Int.ceil_pos.mpr hx
    omega
  refine ⟨htr, ?_, ?_, ?_, ?_, ?_, ?_, ?_⟩
  · rw [design_stages]
    omega
  · rw [design_total_reactors, design_stages]
    have := Nat.mul_le_mul htr (Nat.le_max_left 2 (min 4 n))
    simpa using this
  · rw [design_total_pumps]
    omega
  · rw [design_total_pumps]
    omega
  · rw [design_filter_units]
    exact Nat.le_max_left _ _
  · rw [design_operators]
    exact Nat.le_max_left _ _
  · rw [design_c20, design_c40]
    exact containerCounts_pos _ _

/-- Witness for C9 at the baseline inputs. -/
theorem spec_C9_witness :
    1 ≤ res0.num_reactor_trains
    ∧ (res0.stages_needed = 2 ∨ res0.stages_needed = 3 ∨ res0.stages_needed = 4)
    ∧ 2 ≤ res0.total_reactors
    ∧ res0.total_pumps = 4 * res0.num_reactor_trains + 2
    ∧ 6 ≤ res0.total_pumps
    ∧ 2 ≤ res0.filter_units
    ∧ 1 ≤ res0.operators_required
    ∧ 1 ≤ res0.num_20ft_containers + res0.num_40ft_containers :=
  spec_C9 20 P0 R0 res0 (by norm_num [P0]) (by norm_num [P0]) (by norm_num [P0])
    (by norm_num [P0]) calc_P0

/-- C10: in the 20ft branch (`0 < flowrate ≤ 15`, reactor size 1.5 or 2.0)
there is exactly one train and two filter units, so the housed unit count
never exceeds the 20ft capacity of 6, and the single mandated 20ft
container suffices. -/
theorem spec_C10 (fuel : ℕ) (p : ProcessInputs) (r : CostRates) (res : DesignResult)
    (hf0 : 0 < p.flowrate) (hf : p.flowrate ≤ 15)
    (hrs : p.reactor_size = 3/2 ∨ p.reactor_size = 2)
    (hres : calculate_design_values fuel p r = some res) :
    res.total_equipment_units ≤ 6
    ∧ res.num_reactor_trains = 1
    ∧ res.filter_units = 2
    ∧ res.num_20ft_containers = 1 ∧ res.num_40ft_containers = 0 := by
  obtain ⟨n, -, -, heq⟩ := calc_staging hres
  subst heq
  have ht : (designFromStaging p r n (codSeq p.cod_inlet n)).num_reactor_trains = 1 := by
    rw [design_trains]
    refine ceil_toNat_eq (m := 1) ?_ ?_
    · calc (1 : ℚ) - 1 = 0 := by norm_num
        _ < p.flowrate / 24 / (p.reactor_size / 2) := by
          rcases hrs with h | h <;> rw [h] <;>
            exact div_pos (div_pos hf0 (by norm_num)) (by norm_num)
    · push_cast
      rcases hrs with h | h <;> rw [h]
      · have hx : p.flowrate / 24 / ((3/2 : ℚ) / 2) = p.flowrate / 18 := by ring
        rw [hx]
        linarith
      · have hx : p.flowrate / 24 / ((2 : ℚ) / 2) = p.flowrate / 24 := by ring
        rw [hx]
        linarith
  have harea : (designFromStaging p r n (codSeq p.cod_inlet n)).required_filter_area
      = p.reactor_size / (1/4 : ℚ) * 1 / 10 := by
    rw [design_area, design_pump_flow, ht]
    norm_num
  have hfu : (designFromStaging p r n (codSeq p.cod_inlet n)).filter_units = 2 := by
    rw [design_filter_units]
    have hone : (Int.ceil ((designFromStaging p r n
        (codSeq p.cod_inlet n)).required_filter_area / 5)).toNat = 1 := by
      rw [harea]
      refine ceil_toNat_eq (m := 1) ?_ ?_
      · calc (1 : ℚ) - 1 = 0 := by norm_num
          _ < p.reactor_size / (1/4 : ℚ) * 1 / 10 / 5 := by
            rcases hrs with h | h <;> rw [h] <;> norm_num
      · push_cast
        rcases hrs with h | h <;> rw [h] <;> norm_num
    rw [hone]
    decide
  refine ⟨?_, ht, hfu, ?_, ?_⟩
  · rw [design_units, design_total_reactors, design_stages, ht, hfu]
    have hmin : min 4 n ≤ 4 := min_le_left 4 n
    omega
  · rw [design_c20]
    simp [containerCounts, hf]
  · rw [design_c40]
    simp [containerCounts, hf]

/-- Witness for C10 at the baseline inputs. -/
theorem spec_C10_witness :
    res0.total_equipment_units ≤ 6
    ∧ res0.num_reactor_trains = 1
    ∧ res0.filter_units = 2
    ∧ res0.num_20ft_containers = 1 ∧ res0.num_40ft_containers = 0 :=
  spec_C10 20 P0 R0 res0 (by norm_num [P0]) (by norm_num [P0])
    (by norm_num [P0]) calc_P0

/-! Monotonicity of the engine in flowrate, component by component. -/

lemma trains_mono (p₁ p₂ : ProcessInputs) (r₁ r₂ : CostRates) (n₁ n₂ : ℕ)
    (vs₁ vs₂ : List ℚ)
    (hrs : p₁.reactor_size = p₂.reactor_size) (hf : p₁.flowrate ≤ p₂.flowrate)
    (hrspos : 0 < p₁.reactor_size) :
    (designFromStaging p₁ r₁ n₁ vs₁).num_reactor_trains
      ≤ (designFromStaging p₂ r₂ n₂ vs₂).num_reactor_trains := by
  rw [design_trains, design_trains, ← hrs]
  have hhalf : 0 < p₁.reactor_size / 2 := by positivity
  have h24 : p₁.flowrate / 24 ≤ p₂.flowrate / 24 := by linarith
  exact Int.toNat_le_toNat (Int.ceil_le_ceil ((div_le_div_right hhalf).mpr h24))

lemma reactors_mono (p₁ p₂ : ProcessInputs) (r₁ r₂ : CostRates) (n : ℕ)
    (vs₁ vs₂ : List ℚ)
    (hrs : p₁.reactor_size = p₂.reactor_size) (hf : p₁.flowrate ≤ p₂.flowrate)
    (hrspos : 0 < p₁.reactor_size) :
    (designFromStaging p₁ r₁ n vs₁).total_reactors
      ≤ (designFromStaging p₂ r₂ n vs₂).total_reactors := by
  rw [design_total_reactors, design_total_reactors, design_stages, design_stages]
  exact Nat.mul_le_mul (trains_mono p₁ p₂ r₁ r₂ n n vs₁ vs₂ hrs hf hrspos) le_rfl

lemma pumps_mono (p₁ p₂ : ProcessInputs) (r₁ r₂ : CostRates) (n₁ n₂ : ℕ)
    (vs₁ vs₂ : List ℚ)
    (hrs : p₁.reactor_size = p₂.reactor_size) (hf : p₁.flowrate ≤ p₂.flowrate)
    (hrspos : 0 < p₁.reactor_size) :
    (designFromStaging p₁ r₁ n₁ vs₁).total_pumps
      ≤ (designFromStaging p₂ r₂ n₂ vs₂).total_pumps := by
  rw [design_total_pumps, design_total_pumps]
  have := trains_mono p₁ p₂ r₁ r₂ n₁ n₂ vs₁ vs₂ hrs hf hrspos
  omega

lemma area_mono (p₁ p₂ : ProcessInputs) (r₁ r₂ : CostRates) (n₁ n₂ : ℕ)
    (vs₁ vs₂ : List ℚ)
    (hrs : p₁.reactor_size = p₂.reactor_size) (hf : p₁.flowrate ≤ p₂.flowrate)
    (hrspos : 0 < p₁.reactor_size) :
    (designFromStaging p₁ r₁ n₁ vs₁).required_filter_area
      ≤ (designFromStaging p₂ r₂ n₂ vs₂).required_filter_area := by
  rw [design_area, design_area, design_pump_flow, design_pump_flow, ← hrs]
  have h := trains_mono p₁ p₂ r₁ r₂ n₁ n₂ vs₁ vs₂ hrs hf hrspos
  have hq : (((designFromStaging p₁ r₁ n₁ vs₁).num_reactor_trains : ℕ) : ℚ)
      ≤ (((designFromStaging p₂ r₂ n₂ vs₂).num_reactor_trains : ℕ) : ℚ) := by
    exact_mod_cast h
  have hnn : 0 ≤ p₁.reactor_size / (1/4 : ℚ) :=
    div_nonneg (le_of_lt hrspos) (by norm_num)
  have := mul_le_mul_of_nonneg_left hq hnn
  linarith

lemma filter_units_mono (p₁ p₂ : ProcessInputs) (r₁ r₂ : CostRates) (n₁ n₂ : ℕ)
    (vs₁ vs₂ : List ℚ)
    (hrs : p₁.reactor_size = p₂.reactor_size) (hf : p₁.flowrate ≤ p₂.flowrate)
    (hrspos : 0 < p₁.reactor_size) :
    (designFromStaging p₁ r₁ n₁ vs₁).filter_units
      ≤ (designFromStaging p₂ r₂ n₂ vs₂).filter_units := by
  rw [design_filter_units, design_filter_units]
  refine max_le_max le_rfl (Int.toNat_le_toNat (Int.ceil_le_ceil ?_))
  exact (div_le_div_right (by norm_num : (0:ℚ) < 5)).mpr
    (area_mono p₁ p₂ r₁ r₂ n₁ n₂ vs₁ vs₂ hrs hf hrspos)

lemma units_mono (p₁ p₂ : ProcessInputs) (r₁ r₂ : CostRates) (n : ℕ)
    (vs₁ vs₂ : List ℚ)
    (hrs : p₁.reactor_size = p₂.reactor_size) (hf : p₁.flowrate ≤ p₂.flowrate)
    (hrspos : 0 < p₁.reactor_size) :
    (designFromStaging p₁ r₁ n vs₁).total_equipment_units
      ≤ (designFromStaging p₂ r₂ n vs₂).total_equipment_units := by
  rw [design_units, design_units]
  exact Nat.add_le_add (reactors_mono p₁ p₂ r₁ r₂ n vs₁ vs₂ hrs hf hrspos)
    (filter_units_mono p₁ p₂ r₁ r₂ n n vs₁ vs₂ hrs hf hrspos)

lemma capex_mono (p₁ p₂ : ProcessInputs) (r : CostRates) (n : ℕ) (vs₁ vs₂ : List ℚ)
    (hrs : p₁.reactor_size = p₂.reactor_size) (hf : p₁.flowrate ≤ p₂.flowrate)
    (hrspos : 0 < p₁.reactor_size)
    (haop : 0 ≤ r.aop_reactor_unit_cost) (hpump : 0 ≤ r.pump_unit_cost)
    (hfil : 0 ≤ r.filter_unit_cost) (hgen : 0 ≤ r.ozone_generator_unit_cost)
    (hpip : 0 ≤ r.piping_factor) (hepc : 0 ≤ r.epc_factor)
    (hc20 : 0 ≤ r.container_20ft_cost)
    (hc2040 : r.container_20ft_cost ≤ r.container_40ft_cost) :
    (designFromStaging p₁ r n vs₁).total_capex
      ≤ (designFromStaging p₂ r n vs₂).total_capex := by
  have hTR := reactors_mono p₁ p₂ r r n vs₁ vs₂ hrs hf hrspos
  have hTRq : (((designFromStaging p₁ r n vs₁).total_reactors : ℕ) : ℚ)
      ≤ (((designFromStaging p₂ r n vs₂).total_reactors : ℕ) : ℚ) := by exact_mod_cast hTR
  have hPn := pumps_mono p₁ p₂ r r n n vs₁ vs₂ hrs hf hrspos
  have hPq : (((designFromStaging p₁ r n vs₁).total_pumps : ℕ) : ℚ)
      ≤ (((designFromStaging p₂ r n vs₂).total_pumps : ℕ) : ℚ) := by exact_mod_cast hPn
  have hA : (designFromStaging p₁ r n vs₁).aop_reactor_cost
      ≤ (designFromStaging p₂ r n vs₂).aop_reactor_cost := by
    rw [design_aop_cost, design_aop_cost]
    exact mul_le_mul_of_nonneg_left hTRq haop
  have hG : (designFromStaging p₁ r n vs₁).ozone_generator_cost
      ≤ (designFromStaging p₂ r n vs₂).ozone_generator_cost := by
    rw [design_gen_cost, design_gen_cost, design_num_generators, design_num_generators]
    refine mul_le_mul_of_nonneg_right ?_ hgen
    exact_mod_cast Nat.mul_le_mul hTR le_rfl
  have hP : (designFromStaging p₁ r n vs₁).pump_cost
      ≤ (designFromStaging p₂ r n vs₂).pump_cost := by
    rw [design_pump_cost, design_pump_cost]
    exact mul_le_mul_of_nonneg_left hPq hpump
  have hF : (designFromStaging p₁ r n vs₁).filter_cost
      ≤ (designFromStaging p₂ r n vs₂).filter_cost := by
    rw [design_filter_cost, design_filter_cost]
    exact mul_le_mul_of_nonneg_left
      (area_mono p₁ p₂ r r n n vs₁ vs₂ hrs hf hrspos) hfil
  have hPi : (designFromStaging p₁ r n vs₁).piping_cost
      ≤ (designFromStaging p₂ r n vs₂).piping_cost := by
    rw [design_piping_cost, design_piping_cost]
    exact mul_le_mul_of_nonneg_right (add_le_add hA hP) hpip
  have hC : (designFromStaging p₁ r n vs₁).container_cost
      ≤ (designFromStaging p₂ r n vs₂).container_cost := by
    rw [contCost_design, contCost_design]
    exact containerCost_mono hc20 hc2040 hf (units_mono p₁ p₂ r r n vs₁ vs₂ hrs hf hrspos)
  have hD : (designFromStaging p₁ r n vs₁).direct_costs
      ≤ (designFromStaging p₂ r n vs₂).direct_costs := by
    rw [design_direct_costs, design_direct_costs, design_ph_cost, design_ph_cost]
    exact add_le_add (add_le_add (add_le_add (add_le_add
      (add_le_add (add_le_add hA hG) hP) hF) le_rfl) hPi) hC
  rw [design_total_capex, design_total_capex, design_epc_cost, design_epc_cost]
  exact add_le_add hD (mul_le_mul_of_nonneg_right hD hepc)

/-- C6 (amended): with all COD, pH, and reactor parameters fixed and the
same cost rates, a larger flowrate never decreases `total_reactors` or
`total_pumps`; `total_capex` is also monotone provided (beyond the §6
nonnegativity of the rates) the 20ft container does not cost more than the
40ft one. -/
theorem spec_C6_amended (fuel₁ fuel₂ : ℕ) (p₁ p₂ : ProcessInputs) (r : CostRates)
    (res₁ res₂ : DesignResult)
    (hci : p₁.cod_inlet = p₂.cod_inlet) (hct : p₁.cod_target = p₂.cod_target)
    (hph : p₁.initial_ph = p₂.initial_ph) (hrs : p₁.reactor_size = p₂.reactor_size)
    (hf : p₁.flowrate ≤ p₂.flowrate) (hrspos : 0 < p₁.reactor_size)
    (haop : 0 ≤ r.aop_reactor_unit_cost) (hpump : 0 ≤ r.pump_unit_cost)
    (hfil : 0 ≤ r.filter_unit_cost) (hgen : 0 ≤ r.ozone_generator_unit_cost)
    (hpip : 0 ≤ r.piping_factor) (hepc : 0 ≤ r.epc_factor)
    (hc20 : 0 ≤ r.container_20ft_cost)
    (hc2040 : r.container_20ft_cost ≤ r.container_40ft_cost)
    (h₁ : calculate_design_values fuel₁ p₁ r = some res₁)
    (h₂ : calculate_design_values fuel₂ p₂ r = some res₂) :
    res₁.total_reactors ≤ res₂.total_reactors
    ∧ res₁.total_pumps ≤ res₂.total_pumps
    ∧ res₁.total_capex ≤ res₂.total_capex := by
  obtain ⟨n₁, hle₁, hlt₁, heq₁⟩ := calc_staging h₁
  obtain ⟨n₂, hle₂, hlt₂, heq₂⟩ := calc_staging h₂
  rw [hci, hct] at hle₁ hlt₁
  obtain rfl : n₁ = n₂ := least_unique hle₁ hlt₁ hle₂ hlt₂
  subst heq₁
  subst heq₂
  exact ⟨reactors_mono p₁ p₂ r r n₁ _ _ hrs hf hrspos,
    pumps_mono p₁ p₂ r r n₁ n₁ _ _ hrs hf hrspos,
    capex_mono p₁ p₂ r n₁ _ _ hrs hf hrspos haop hpump hfil hgen hpip hepc
      hc20 hc2040⟩

/-- Witness for the amended C6: flowrate 10 versus 48 at the default rates. -/
theorem spec_C6_amended_witness :
    P0.flowrate ≤ P48.flowrate ∧ R0.container_20ft_cost ≤ R0.container_40ft_cost
    ∧ res0.total_reactors ≤ res48.total_reactors
    ∧ res0.total_pumps ≤ res48.total_pumps
    ∧ res0.total_capex ≤ res48.total_capex := by
  have h := spec_C6_amended 20 20 P0 P48 R0 res0 res48 rfl rfl rfl rfl
    (by norm_num [P0, P48]) (by norm_num [P0])
    (by norm_num [R0]) (by norm_num [R0]) (by norm_num [R0]) (by norm_num [R0])
    (by norm_num [R0]) (by norm_num [R0]) (by norm_num [R0]) (by norm_num [R0])
    calc_P0 calc_P48
  exact ⟨by norm_num [P0, P48], by norm_num [R0], h.1, h.2.1, h.2.2⟩

/-- Inputs at the 20ft container boundary (15 m³/day). -/
def P15 : ProcessInputs := ⟨15, 1000, 75, 7, 2⟩

/-- Inputs just above the 20ft container boundary (16 m³/day). -/
def P16 : ProcessInputs := ⟨16, 1000, 75, 7, 2⟩

/-- Default rates except a 20ft container (8000 USD) priced above a 40ft
one (5000 USD) — both inside the dashboard's allowed widget ranges. -/
def Rbad : CostRates :=
  ⟨650, 650, 650, 650, 650, 450, 3, 1/20, 1/4, 1/10, 3/10, 3/10,
   8000, 5000, 19/100, 1, 58⟩

/-- Engine value at the boundary inputs and inverted container prices. -/
def res15 : DesignResult := designFromStaging P15 Rbad 3 (codSeq P15.cod_inlet 3)

/-- Engine value just above the boundary with inverted container prices. -/
def res16 : DesignResult := designFromStaging P16 Rbad 3 (codSeq P16.cod_inlet 3)

lemma calc_P15 : calculate_design_values 20 P15 Rbad = some res15 :=
  calc_eq_of_least (by norm_num) (by norm_num [P15])
    (by intro k hk; interval_cases k <;> norm_num [P15])

lemma calc_P16 : calculate_design_values 20 P16 Rbad = some res16 :=
  calc_eq_of_least (by norm_num) (by norm_num [P16])
    (by intro k hk; interval_cases k <;> norm_num [P16])

lemma res15_trains : (designFromStaging P15 Rbad 3 (codSeq P15.cod_inlet 3)).num_reactor_trains = 1 := by
  rw [design_trains]
  exact ceil_toNat_eq (by norm_num [P15]) (by norm_num [P15])

lemma res16_trains : (designFromStaging P16 Rbad 3 (codSeq P16.cod_inlet 3)).num_reactor_trains = 1 := by
  rw [design_trains]
  exact ceil_toNat_eq (by norm_num [P16]) (by norm_num [P16])

lemma res15_filter_units : (designFromStaging P15 Rbad 3 (codSeq P15.cod_inlet 3)).filter_units = 2 := by
  rw [design_filter_units, design_area, design_pump_flow, res15_trains]
  rw [ceil_toNat_eq (m := 1) (by norm_num [P15]) (by norm_num [P15])]
  decide

lemma res16_filter_units : (designFromStaging P16 Rbad 3 (codSeq P16.cod_inlet 3)).filter_units = 2 := by
  rw [design_filter_units, design_area, design_pump_flow, res16_trains]
  rw [ceil_toNat_eq (m := 1) (by norm_num [P16]) (by norm_num [P16])]
  decide

lemma res15_units : (designFromStaging P15 Rbad 3 (codSeq P15.cod_inlet 3)).total_equipment_units = 5 := by
  rw [design_units, design_total_reactors, design_stages, res15_trains, res15_filter_units]
  decide

lemma res16_units : (designFromStaging P16 Rbad 3 (codSeq P16.cod_inlet 3)).total_equipment_units = 5 := by
  rw [design_units, design_total_reactors, design_stages, res16_trains, res16_filter_units]
  decide

lemma res15_container : (designFromStaging P15 Rbad 3 (codSeq P15.cod_inlet 3)).container_cost = 8000 := by
  rw [design_container_cost, design_c20, design_c40, res15_units]
  rw [show containerCounts P15.flowrate 5 = (1, 0) from by norm_num [containerCounts, P15]]
  norm_num [Rbad]

lemma res16_container : (designFromStaging P16 Rbad 3 (codSeq P16.cod_inlet 3)).container_cost = 5000 := by
  rw [design_container_cost, design_c20, design_c40, res16_units]
  rw [show containerCounts P16.flowrate 5 = (0, 1) from by
    norm_num [containerCounts, containerCounts40, P16]]
  norm_num [Rbad]

lemma res15_capex : res15.total_capex = 53755/2 := by
  simp only [res15, design_total_capex, design_epc_cost, design_direct_costs,
    design_aop_cost, design_gen_cost, design_num_generators, design_pump_cost,
    design_total_pumps, design_filter_cost, design_area, design_pump_flow,
    design_ph_cost, design_piping_cost, design_total_reactors, design_stages,
    res15_trains, res15_container]
  norm_num [P15, Rbad]

lemma res16_capex : res16.total_capex = 45955/2 := by
  simp only [res16, design_total_capex, design_epc_cost, design_direct_costs,
    design_aop_cost, design_gen_cost, design_num_generators, design_pump_cost,
    design_total_pumps, design_filter_cost, design_area, design_pump_flow,
    design_ph_cost, design_piping_cost, design_total_reactors, design_stages,
    res16_trains, res16_container]
  norm_num [P16, Rbad]

/-- Counterexample for C6: the two inputs differ only in flowrate (15 versus
16 m³/day), all rates lie in the dashboard's allowed ranges, yet the larger
flowrate has strictly smaller `total_capex` — crossing the container
boundary swaps an 8000 USD 20ft container for a 5000 USD 40ft one. -/
theorem spec_C6_counterexample :
    P15.cod_inlet = P16.cod_inlet ∧ P15.cod_target = P16.cod_target
    ∧ P15.initial_ph = P16.initial_ph ∧ P15.reactor_size = P16.reactor_size
    ∧ P15.flowrate < P16.flowrate
    ∧ 0 < Rbad.container_20ft_cost ∧ 0 < Rbad.container_40ft_cost
    ∧ calculate_design_values 20 P15 Rbad = some res15
    ∧ calculate_design_values 20 P16 Rbad = some res16
    ∧ res16.total_capex < res15.total_capex := by
  refine ⟨rfl, rfl, rfl, rfl, by norm_num [P15, P16], by norm_num [Rbad],
    by norm_num [Rbad], calc_P15, calc_P16, ?_⟩
  rw [res15_capex, res16_capex]
  norm_num
